import Mathlib

/-!
Shallow embedding of `agent/api/statechange.go` from the amazon-ecs-agent
repository: the state-change event constructors for tasks and containers,
the timestamp/snapshot assembly, the reporting-eligibility predicate, and
the string rendering.  Status enumerations and their helper predicates
(`BackendRecognized`, `ShouldReportToBackend`, `BackendStatus`,
`String()` on statuses), the `Task`/`Container` entities with their
read-only accessors, `time.Time`, `PortBinding` and `ENIAttachment` live
outside the sampled file and are modelled from the specification.
-/

namespace api

/-- Modelled from the spec: task statuses form an ordered enumeration
(`NONE < CREATED < RUNNING < STOPPED`); the numeric ordinal encodes
"already reached or passed". -/
inductive TaskStatus
  | TaskStatusNone
  | TaskCreated
  | TaskRunning
  | TaskStopped
  deriving DecidableEq, Repr

/-- Modelled from the spec: the ordinal of a task status in the total order. -/
def TaskStatus.ord : TaskStatus → Nat
  | .TaskStatusNone => 0
  | .TaskCreated => 1
  | .TaskRunning => 2
  | .TaskStopped => 3

/-- Modelled from the spec: the backend-recognized subset of task statuses —
the statuses the control plane accepts in event submissions (the
terminal/steady statuses RUNNING and STOPPED). -/
def TaskStatus.BackendRecognized : TaskStatus → Bool
  | .TaskRunning => true
  | .TaskStopped => true
  | _ => false

/-- Modelled from the spec: human-readable name of a task status. -/
def TaskStatus.String : TaskStatus → String
  | .TaskStatusNone => "NONE"
  | .TaskCreated => "CREATED"
  | .TaskRunning => "RUNNING"
  | .TaskStopped => "STOPPED"

/-- Modelled from the spec: container statuses form an ordered enumeration;
a container's steady-state status is the one considered its normal
"running" condition. -/
inductive ContainerStatus
  | ContainerStatusNone
  | ContainerPulled
  | ContainerCreated
  | ContainerRunning
  | ContainerResourcesProvisioned
  | ContainerStopped
  deriving DecidableEq, Repr

/-- Modelled from the spec: the ordinal of a container status in the total order. -/
def ContainerStatus.ord : ContainerStatus → Nat
  | .ContainerStatusNone => 0
  | .ContainerPulled => 1
  | .ContainerCreated => 2
  | .ContainerRunning => 3
  | .ContainerResourcesProvisioned => 4
  | .ContainerStopped => 5

/-- Modelled from the spec: a container's known status is reportable exactly
when it equals the container's steady-state status or is the stopped
status (the reportable set depends on which status counts as "steady"). -/
def ContainerStatus.ShouldReportToBackend (cs steadyStateStatus : ContainerStatus) : Bool :=
  cs = steadyStateStatus || cs = .ContainerStopped

/-- Modelled from the spec: backend-facing status translation, consulting the
steady-state status — the steady status maps to RUNNING, stopped maps to
STOPPED, anything else to NONE. -/
def ContainerStatus.BackendStatus (cs steadyStateStatus : ContainerStatus) : ContainerStatus :=
  if cs = steadyStateStatus then .ContainerRunning
  else if cs = .ContainerStopped then .ContainerStopped
  else .ContainerStatusNone

/-- Modelled from the spec: human-readable name of a container status. -/
def ContainerStatus.String : ContainerStatus → String
  | .ContainerStatusNone => "NONE"
  | .ContainerPulled => "PULLED"
  | .ContainerCreated => "CREATED"
  | .ContainerRunning => "RUNNING"
  | .ContainerResourcesProvisioned => "RESOURCES_PROVISIONED"
  | .ContainerStopped => "STOPPED"

/-- Modelled from the spec: an absolute instant with a display location, the
shape of Go's `time.Time` as used here.  The zero value (zero seconds and
nanoseconds) means "unset". -/
structure GoTime where
  sec : Int
  nsec : Int
  loc : String
  deriving DecidableEq, Repr

/-- `time.Time.IsZero`: the instant is the zero/unset value. -/
def GoTime.IsZero (t : GoTime) : Bool :=
  t.sec = 0 && t.nsec = 0

/-- `time.Time.UTC`: the same instant with its display location set to UTC. -/
def GoTime.UTC (t : GoTime) : GoTime :=
  { t with loc := "UTC" }

/-- Modelled from the spec: deterministic rendering of a time value. -/
def GoTime.String (t : GoTime) : String :=
  toString t.sec ++ "." ++ toString t.nsec ++ " " ++ t.loc

/-- Modelled from the spec: a published port binding of a container. -/
structure PortBinding where
  ContainerPort : Nat
  HostPort : Nat
  BindIP : String
  deriving DecidableEq, Repr

/-- Modelled from the spec: rendering of a port-binding list (the exact
format belongs to an external formatting collaborator). -/
def formatPortBindings (l : List PortBinding) : String :=
  "[" ++ String.intercalate " " (l.map (fun b =>
    b.BindIP ++ ":" ++ toString b.HostPort ++ "->" ++ toString b.ContainerPort)) ++ "]"

/-- Modelled from the spec: the network-attachment summary attached to a
task state change. -/
structure ENIAttachment where
  AttachmentARN : String
  Status : String
  deriving DecidableEq, Repr

/-- Modelled from the spec: rendering of a network-attachment summary. -/
def ENIAttachment.String (a : ENIAttachment) : String :=
  "ENI Attachment: attachment=" ++ a.AttachmentARN ++ " status=" ++ a.Status

/-- Modelled from the spec: the Task entity — identifier, known status,
last-sent status and the three optional timestamps read by this core
(unset timestamps are the zero time value). -/
structure Task where
  Arn : String
  KnownStatus : TaskStatus
  SentStatus : TaskStatus
  PullStartedAt : GoTime
  PullStoppedAt : GoTime
  ExecutionStoppedAt : GoTime
  deriving DecidableEq, Repr

/-- Modelled from the spec: read-only accessor for the task's known status. -/
def Task.GetKnownStatus (t : Task) : TaskStatus := t.KnownStatus

/-- Modelled from the spec: read-only accessor for the task's last-sent status. -/
def Task.GetSentStatus (t : Task) : TaskStatus := t.SentStatus

/-- Modelled from the spec: read-only accessor for the pull-start timestamp. -/
def Task.GetPullStartedAt (t : Task) : GoTime := t.PullStartedAt

/-- Modelled from the spec: read-only accessor for the pull-stop timestamp. -/
def Task.GetPullStoppedAt (t : Task) : GoTime := t.PullStoppedAt

/-- Modelled from the spec: read-only accessor for the execution-stop timestamp. -/
def Task.GetExecutionStoppedAt (t : Task) : GoTime := t.ExecutionStoppedAt

/-- Modelled from the spec: the Container entity — name, known status,
last-sent status, steady-state status, internal flag, optional last
operational error (its message), optional known exit code and published
port bindings. -/
structure Container where
  Name : String
  KnownStatus : ContainerStatus
  SentStatus : ContainerStatus
  SteadyStateStatus : ContainerStatus
  Internal : Bool
  ApplyingError : Option String
  KnownExitCode : Option Int
  KnownPortBindings : List PortBinding
  deriving DecidableEq, Repr

/-- Modelled from the spec: read-only accessor for the container's known status. -/
def Container.GetKnownStatus (c : Container) : ContainerStatus := c.KnownStatus

/-- Modelled from the spec: read-only accessor for the container's last-sent status. -/
def Container.GetSentStatus (c : Container) : ContainerStatus := c.SentStatus

/-- Modelled from the spec: read-only accessor for the container's steady-state status. -/
def Container.GetSteadyStateStatus (c : Container) : ContainerStatus := c.SteadyStateStatus

/-- Modelled from the spec: whether the container is flagged internal. -/
def Container.IsInternal (c : Container) : Bool := c.Internal

/-- Modelled from the spec: read-only accessor for the container's known exit code. -/
def Container.GetKnownExitCode (c : Container) : Option Int := c.KnownExitCode

/-- `ContainerStateChange` represents a state change that needs to be sent
to the SubmitContainerStateChange API. -/
structure ContainerStateChange where
  TaskArn : String
  ContainerName : String
  Status : ContainerStatus
  Reason : String
  ExitCode : Option Int
  PortBindings : List PortBinding
  Container : Option Container
  deriving DecidableEq, Repr

/-- `TaskStateChange` represents a state change that needs to be sent to
the SubmitTaskStateChange API. -/
structure TaskStateChange where
  Attachment : Option ENIAttachment
  TaskARN : String
  Status : TaskStatus
  Reason : String
  Containers : List ContainerStateChange
  PullStartedAt : Option GoTime
  PullStoppedAt : Option GoTime
  ExecutionStoppedAt : Option GoTime
  Task : Option Task
  deriving DecidableEq, Repr

/-- The typed failures of `NewTaskStateChangeEvent`, one constructor per
`errors.Errorf` site, carrying the formatted arguments. -/
inductive TaskStateChangeError
  | UnrecognizedStatus (status : TaskStatus) (taskArn : String)
  | AlreadySent (status : TaskStatus) (taskArn : String)
  deriving DecidableEq, Repr

/-- The typed failures of `NewContainerStateChangeEvent`, one constructor
per `errors.Errorf` site, carrying the formatted arguments. -/
inductive ContainerStateChangeError
  | UnrecognizedStatus (status : ContainerStatus) (taskArn : String)
  | InternalContainer (name : String)
  | AlreadySent (status : ContainerStatus) (name taskArn : String)
  deriving DecidableEq, Repr

/-- `SetTaskTimestamps` adds the timestamp information of the task into the
event to be sent by SubmitTaskStateChange: a non-zero pull-start,
pull-stop or execution-stop time on the back-referenced task is copied in
converted to UTC; a nil task back-reference leaves the event unchanged. -/
def TaskStateChange.SetTaskTimestamps (change : TaskStateChange) : TaskStateChange :=
  match change.Task with
  | none => change
  | some task =>
    let change :=
      if (task.GetPullStartedAt.IsZero : Bool) = false then
        { change with PullStartedAt := some task.GetPullStartedAt.UTC }
      else change
    let change :=
      if (task.GetPullStoppedAt.IsZero : Bool) = false then
        { change with PullStoppedAt := some task.GetPullStoppedAt.UTC }
      else change
    let change :=
      if (task.GetExecutionStoppedAt.IsZero : Bool) = false then
        { change with ExecutionStoppedAt := some task.GetExecutionStoppedAt.UTC }
      else change
    change

/-- `NewTaskStateChangeEvent` creates a new task state change event. -/
def NewTaskStateChangeEvent (task : Task) (reason : String) :
    Except TaskStateChangeError TaskStateChange :=
  let taskKnownStatus := task.GetKnownStatus
  if (taskKnownStatus.BackendRecognized : Bool) = false then
    Except.error (TaskStateChangeError.UnrecognizedStatus taskKnownStatus task.Arn)
  else if task.GetSentStatus.ord ≥ taskKnownStatus.ord then
    Except.error (TaskStateChangeError.AlreadySent taskKnownStatus task.Arn)
  else
    Except.ok (TaskStateChange.SetTaskTimestamps
      { Attachment := none
        TaskARN := task.Arn
        Status := taskKnownStatus
        Reason := reason
        Containers := []
        PullStartedAt := none
        PullStoppedAt := none
        ExecutionStoppedAt := none
        Task := some task })

/-- `NewContainerStateChangeEvent` creates a new container state change event. -/
def NewContainerStateChangeEvent (task : Task) (cont : Container) (reason : String) :
    Except ContainerStateChangeError ContainerStateChange :=
  let contKnownStatus := cont.GetKnownStatus
  if (contKnownStatus.ShouldReportToBackend cont.GetSteadyStateStatus : Bool) = false then
    Except.error (ContainerStateChangeError.UnrecognizedStatus contKnownStatus task.Arn)
  else if cont.IsInternal then
    Except.error (ContainerStateChangeError.InternalContainer cont.Name)
  else if cont.GetSentStatus.ord ≥ contKnownStatus.ord then
    Except.error (ContainerStateChangeError.AlreadySent contKnownStatus cont.Name task.Arn)
  else
    let reason :=
      match cont.ApplyingError with
      | some err => if reason = "" then err else reason
      | none => reason
    Except.ok
      { TaskArn := task.Arn
        ContainerName := cont.Name
        Status := contKnownStatus.BackendStatus cont.GetSteadyStateStatus
        ExitCode := cont.GetKnownExitCode
        PortBindings := cont.KnownPortBindings
        Reason := reason
        Container := some cont }

/-- `ShouldBeReported` checks if the state change should be reported to the
backend: normal task state changes RUNNING/STOPPED, or any change that
carries container events. -/
def TaskStateChange.ShouldBeReported (change : TaskStateChange) : Bool :=
  if change.Status = .TaskRunning || change.Status = .TaskStopped then true
  else if change.Containers.length ≠ 0 then true
  else false

/-- `String` returns a human readable string representation of a container
state change. -/
def ContainerStateChange.String (c : ContainerStateChange) : String :=
  let res := c.TaskArn ++ " " ++ c.ContainerName ++ " -> " ++ c.Status.String
  let res :=
    match c.ExitCode with
    | some code => res ++ ", Exit " ++ toString code ++ ", "
    | none => res
  let res := if c.Reason ≠ "" then res ++ ", Reason " ++ c.Reason else res
  let res :=
    if c.PortBindings.length ≠ 0 then res ++ ", Ports " ++ formatPortBindings c.PortBindings
    else res
  let res :=
    match c.Container with
    | some cont => res ++ ", Known Sent: " ++ cont.GetSentStatus.String
    | none => res
  res

/-- `String` returns a human readable string representation of a task state
change. -/
def TaskStateChange.String (t : TaskStateChange) : String :=
  let res := t.TaskARN ++ " -> " ++ t.Status.String
  let res :=
    match t.Task with
    | some task =>
      res ++ ", Known Sent: " ++ task.GetSentStatus.String
          ++ ", PullStartedAt: " ++ task.GetPullStartedAt.String
          ++ ", PullStoppedAt: " ++ task.GetPullStoppedAt.String
          ++ ", ExecutionStoppedAt: " ++ task.GetExecutionStoppedAt.String
    | none => res
  let res :=
    match t.Attachment with
    | some a => res ++ ", " ++ a.String
    | none => res
  t.Containers.foldl (fun acc containerChange => acc ++ ", " ++ containerChange.String) res

/-- The generic event-type enumeration used by the downstream dispatcher. -/
inductive EventType
  | ContainerEvent
  | TaskEvent
  deriving DecidableEq, Repr

/-- `GetEventType` returns an enum identifying the event type. -/
def ContainerStateChange.GetEventType (_ : ContainerStateChange) : EventType :=
  EventType.ContainerEvent

/-- `GetEventType` returns an enum identifying the event type. -/
def TaskStateChange.GetEventType (_ : TaskStateChange) : EventType :=
  EventType.TaskEvent

/-- Discriminator: the result is the `AlreadySent` task error. -/
def taskErrorIsAlreadySent : Except TaskStateChangeError TaskStateChange → Bool
  | .error (.AlreadySent _ _) => true
  | _ => false

/-- Discriminator: the result is the `InternalContainer` error. -/
def containerErrorIsInternal : Except ContainerStateChangeError ContainerStateChange → Bool
  | .error (.InternalContainer _) => true
  | _ => false

/-- The zero/unset time value. -/
def zeroTime : GoTime := { sec := 0, nsec := 0, loc := "Local" }

/-- A sample non-zero time value. -/
def sampleTime : GoTime := { sec := 1500000000, nsec := 5, loc := "Local" }

/-- A sample task with a recognized known status not yet sent. -/
def sampleTask : Task :=
  { Arn := "t1", KnownStatus := .TaskRunning, SentStatus := .TaskCreated,
    PullStartedAt := sampleTime, PullStoppedAt := zeroTime, ExecutionStoppedAt := zeroTime }

/-- A sample task whose known status is not backend-recognized while its
sent status is at or beyond it. -/
def staleNoneTask : Task :=
  { Arn := "t2", KnownStatus := .TaskStatusNone, SentStatus := .TaskStatusNone,
    PullStartedAt := zeroTime, PullStoppedAt := zeroTime, ExecutionStoppedAt := zeroTime }

/-- A sample task with a recognized known status already sent. -/
def staleRunningTask : Task :=
  { Arn := "t3", KnownStatus := .TaskRunning, SentStatus := .TaskRunning,
    PullStartedAt := zeroTime, PullStoppedAt := zeroTime, ExecutionStoppedAt := zeroTime }

/-- A sample internal container whose known status is not reportable. -/
def internalCreatedCont : Container :=
  { Name := "c1", KnownStatus := .ContainerCreated, SentStatus := .ContainerStatusNone,
    SteadyStateStatus := .ContainerRunning, Internal := true, ApplyingError := none,
    KnownExitCode := none, KnownPortBindings := [] }

/-- A sample internal container whose known status is reportable and
already sent. -/
def internalStoppedCont : Container :=
  { Name := "c2", KnownStatus := .ContainerStopped, SentStatus := .ContainerStopped,
    SteadyStateStatus := .ContainerRunning, Internal := true, ApplyingError := none,
    KnownExitCode := none, KnownPortBindings := [] }

/-- A sample non-internal container whose reportable status was already sent. -/
def staleStoppedCont : Container :=
  { Name := "c3", KnownStatus := .ContainerStopped, SentStatus := .ContainerStopped,
    SteadyStateStatus := .ContainerRunning, Internal := false, ApplyingError := none,
    KnownExitCode := none, KnownPortBindings := [] }

/-- The fields of a task state change other than the three timestamps are
untouched by `SetTaskTimestamps`. -/
theorem setTaskTimestamps_frame_aux (change : TaskStateChange) :
    change.SetTaskTimestamps.Attachment = change.Attachment ∧
    change.SetTaskTimestamps.TaskARN = change.TaskARN ∧
    change.SetTaskTimestamps.Status = change.Status ∧
    change.SetTaskTimestamps.Reason = change.Reason ∧
    change.SetTaskTimestamps.Containers = change.Containers ∧
    change.SetTaskTimestamps.Task = change.Task := by
  unfold TaskStateChange.SetTaskTimestamps
  cases hT : change.Task with
  | none => simp [hT]
  | some task =>
    dsimp only
    split <;> split <;> split <;> simp [hT]

/-- C1: for every Task whose known status is backend-recognized and whose
sent status is strictly below its known status, `NewTaskStateChangeEvent`
succeeds and the returned event carries the task's known status, the
task's ARN and the supplied reason. -/
theorem newTaskStateChangeEvent_succeeds_below_known
    (task : Task) (reason : String)
    (hrec : task.GetKnownStatus.BackendRecognized = true)
    (hlt : task.GetSentStatus.ord < task.GetKnownStatus.ord) :
    ∃ ev, NewTaskStateChangeEvent task reason = Except.ok ev ∧
      ev.Status = task.GetKnownStatus ∧ ev.TaskARN = task.Arn ∧ ev.Reason = reason := by
  unfold NewTaskStateChangeEvent
  simp only [hrec, Bool.true_eq_false, if_false, Nat.not_le.mpr hlt, ge_iff_le, if_neg,
    Nat.not_le]
  refine ⟨_, rfl, ?_, ?_, ?_⟩
  · exact (setTaskTimestamps_frame_aux _).2.2.1
  · exact (setTaskTimestamps_frame_aux _).2.1
  · exact (setTaskTimestamps_frame_aux _).2.2.2.1

/-- C1 witness: the concrete success scenario. -/
theorem newTaskStateChangeEvent_succeeds_below_known_witness :
    ∃ ev, NewTaskStateChangeEvent sampleTask "r" = Except.ok ev ∧
      ev.Status = sampleTask.GetKnownStatus ∧ ev.TaskARN = sampleTask.Arn ∧
      ev.Reason = "r" :=
  newTaskStateChangeEvent_succeeds_below_known sampleTask "r" rfl (by decide)

/-- C3: for every Task whose known status is not backend-recognized,
`NewTaskStateChangeEvent` fails with the `UnrecognizedStatus` error, for
every reason string and regardless of the sent status. -/
theorem newTaskStateChangeEvent_unrecognized_fails
    (task : Task) (reason : String)
    (hrec : task.GetKnownStatus.BackendRecognized = false) :
    NewTaskStateChangeEvent task reason =
      Except.error (TaskStateChangeError.UnrecognizedStatus task.GetKnownStatus task.Arn) := by
  unfold NewTaskStateChangeEvent
  simp [hrec]

/-- C3 witness: a concrete unrecognized-status task (its sent status even
being at the known status). -/
theorem newTaskStateChangeEvent_unrecognized_fails_witness :
    NewTaskStateChangeEvent staleNoneTask "r" =
      Except.error (TaskStateChangeError.UnrecognizedStatus .TaskStatusNone "t2") :=
  newTaskStateChangeEvent_unrecognized_fails staleNoneTask "r" rfl

/-- C2 counterexample: a task whose sent status is ≥ its known status but
whose known status is not backend-recognized fails with the
`UnrecognizedStatus` error, not `AlreadySent`. -/
theorem taskAlreadySent_claim_counterexample :
    staleNoneTask.GetSentStatus.ord ≥ staleNoneTask.GetKnownStatus.ord ∧
    taskErrorIsAlreadySent (NewTaskStateChangeEvent staleNoneTask "r") = false := by
  decide

/-- C2 (amended): for every Task whose known status is backend-recognized
and whose sent status is ≥ its known status, `NewTaskStateChangeEvent`
fails with `AlreadySent`; and for every Task-and-Container pair where the
container's known status is reportable, the container is not internal, and
its sent status is ≥ its known status, `NewContainerStateChangeEvent`
fails with `AlreadySent` — for every reason string. -/
theorem stateChangeEvent_alreadySent (task : Task) (cont : Container) (reason : String) :
    (task.GetKnownStatus.BackendRecognized = true →
      task.GetSentStatus.ord ≥ task.GetKnownStatus.ord →
      NewTaskStateChangeEvent task reason =
        Except.error (TaskStateChangeError.AlreadySent task.GetKnownStatus task.Arn)) ∧
    (cont.GetKnownStatus.ShouldReportToBackend cont.GetSteadyStateStatus = true →
      cont.IsInternal = false →
      cont.GetSentStatus.ord ≥ cont.GetKnownStatus.ord →
      NewContainerStateChangeEvent task cont reason =
        Except.error
          (ContainerStateChangeError.AlreadySent cont.GetKnownStatus cont.Name task.Arn)) := by
  constructor
  · intro hrec hge
    unfold NewTaskStateChangeEvent
    simp [hrec, hge]
  · intro hrep hint hge
    unfold NewContainerStateChangeEvent
    simp [hrep, hint, hge]

/-- C2 witness: the concrete already-sent task and container scenarios. -/
theorem stateChangeEvent_alreadySent_witness :
    NewTaskStateChangeEvent staleRunningTask "r" =
      Except.error (TaskStateChangeError.AlreadySent .TaskRunning "t3") ∧
    NewContainerStateChangeEvent staleRunningTask staleStoppedCont "r" =
      Except.error (ContainerStateChangeError.AlreadySent .ContainerStopped "c3" "t3") :=
  ⟨(stateChangeEvent_alreadySent staleRunningTask staleStoppedCont "r").1 rfl (by decide),
   (stateChangeEvent_alreadySent staleRunningTask staleStoppedCont "r").2 rfl rfl (by decide)⟩

/-- C4 counterexample: an internal container whose known status is not
reportable fails with the `UnrecognizedStatus` error, not
`InternalContainer`. -/
theorem internalContainer_claim_counterexample :
    internalCreatedCont.IsInternal = true ∧
    containerErrorIsInternal
      (NewContainerStateChangeEvent staleRunningTask internalCreatedCont "r") = false := by
  decide

/-- C4 (amended): for every Container flagged internal whose known status
is reportable against its steady-state status,
`NewContainerStateChangeEvent` fails with the `InternalContainer` error,
regardless of the container's sent status. -/
theorem newContainerStateChangeEvent_internal_fails
    (task : Task) (cont : Container) (reason : String)
    (hrep : cont.GetKnownStatus.ShouldReportToBackend cont.GetSteadyStateStatus = true)
    (hint : cont.IsInternal = true) :
    NewContainerStateChangeEvent task cont reason =
      Except.error (ContainerStateChangeError.InternalContainer cont.Name) := by
  unfold NewContainerStateChangeEvent
  simp [hrep, hint]

/-- C4 witness: the concrete internal reportable container. -/
theorem newContainerStateChangeEvent_internal_fails_witness :
    NewContainerStateChangeEvent staleRunningTask internalStoppedCont "r" =
      Except.error (ContainerStateChangeError.InternalContainer "c2") :=
  newContainerStateChangeEvent_internal_fails staleRunningTask internalStoppedCont "r" rfl rfl

/-- C9: `NewContainerStateChangeEvent` checks reportability before the
internal flag and the internal flag before the already-sent guard: an
internal container with a non-reportable status fails with
`UnrecognizedStatus` (not `InternalContainer`), and an internal container
with a reportable status fails with `InternalContainer` even when its
sent status is ≥ its known status. -/
theorem newContainerStateChangeEvent_check_order
    (task : Task) (cont : Container) (reason : String) :
    (cont.IsInternal = true →
      cont.GetKnownStatus.ShouldReportToBackend cont.GetSteadyStateStatus = false →
      NewContainerStateChangeEvent task cont reason =
          Except.error
            (ContainerStateChangeError.UnrecognizedStatus cont.GetKnownStatus task.Arn) ∧
        containerErrorIsInternal (NewContainerStateChangeEvent task cont reason) = false) ∧
    (cont.IsInternal = true →
      cont.GetKnownStatus.ShouldReportToBackend cont.GetSteadyStateStatus = true →
      cont.GetSentStatus.ord ≥ cont.GetKnownStatus.ord →
      NewContainerStateChangeEvent task cont reason =
        Except.error (ContainerStateChangeError.InternalContainer cont.Name)) := by
  constructor
  · intro _ hrep
    have hfail : NewContainerStateChangeEvent task cont reason =
        Except.error
          (ContainerStateChangeError.UnrecognizedStatus cont.GetKnownStatus task.Arn) := by
      unfold NewContainerStateChangeEvent
      simp [hrep]
    exact ⟨hfail, by rw [hfail]; rfl⟩
  · intro hint hrep _
    unfold NewContainerStateChangeEvent
    simp [hrep, hint]

/-- C9 witness: the two concrete internal-container scenarios. -/
theorem newContainerStateChangeEvent_check_order_witness :
    (NewContainerStateChangeEvent staleRunningTask internalCreatedCont "r" =
        Except.error
          (ContainerStateChangeError.UnrecognizedStatus .ContainerCreated "t3") ∧
      containerErrorIsInternal
        (NewContainerStateChangeEvent staleRunningTask internalCreatedCont "r") = false) ∧
    NewContainerStateChangeEvent staleRunningTask internalStoppedCont "r" =
      Except.error (ContainerStateChangeError.InternalContainer "c2") :=
  ⟨(newContainerStateChangeEvent_check_order staleRunningTask internalCreatedCont "r").1
      rfl rfl,
   (newContainerStateChangeEvent_check_order staleRunningTask internalStoppedCont "r").2
      rfl rfl (by decide)⟩

/-- A sample non-internal container with a recorded operational error,
eligible for a stopped-container event. -/
def erroredStoppedCont : Container :=
  { Name := "c5", KnownStatus := .ContainerStopped, SentStatus := .ContainerRunning,
    SteadyStateStatus := .ContainerRunning, Internal := false,
    ApplyingError := some "boom", KnownExitCode := some 1, KnownPortBindings := [] }

/-- The event produced for `erroredStoppedCont` with an empty reason. -/
def erroredStoppedEvent : ContainerStateChange :=
  { TaskArn := "t3", ContainerName := "c5", Status := .ContainerStopped,
    Reason := "boom", ExitCode := some 1, PortBindings := [],
    Container := some erroredStoppedCont }

/-- C5: when `NewContainerStateChangeEvent` succeeds, the returned reason
is the container's last recorded operational error message when the
supplied reason is empty and such an error exists, and the supplied
reason otherwise. -/
theorem newContainerStateChangeEvent_reason_default
    (task : Task) (cont : Container) (reason : String) (ev : ContainerStateChange)
    (h : NewContainerStateChangeEvent task cont reason = Except.ok ev) :
    (reason = "" → ∀ msg, cont.ApplyingError = some msg → ev.Reason = msg) ∧
    (reason ≠ "" ∨ cont.ApplyingError = none → ev.Reason = reason) := by
  unfold NewContainerStateChangeEvent at h
  dsimp only at h
  cases hrep : cont.GetKnownStatus.ShouldReportToBackend cont.GetSteadyStateStatus with
  | false => rw [hrep] at h; simp at h
  | true =>
    rw [hrep] at h
    rw [if_neg (by simp)] at h
    cases hint : cont.IsInternal with
    | true => rw [hint] at h; simp at h
    | false =>
      rw [hint] at h
      rw [if_neg (by simp)] at h
      by_cases hge : cont.GetSentStatus.ord ≥ cont.GetKnownStatus.ord
      · rw [if_pos hge] at h; simp at h
      · rw [if_neg hge] at h
        cases hA : cont.ApplyingError with
        | some msg =>
          rw [hA] at h
          dsimp only at h
          injection h with h
          subst h
          constructor
          · intro hr msg' hmsg
            injection hmsg with e
            subst e
            simp [hr]
          · rintro (hr | hnone)
            · simp [hr]
            · exact Option.noConfusion hnone
        | none =>
          rw [hA] at h
          dsimp only at h
          injection h with h
          subst h
          constructor
          · intro _ msg' hmsg
            exact Option.noConfusion hmsg
          · intro _
            rfl

/-- C5 witness: a concrete success where the empty supplied reason is
replaced by the recorded error message. -/
theorem newContainerStateChangeEvent_reason_default_witness :
    erroredStoppedEvent.Reason = "boom" :=
  (newContainerStateChangeEvent_reason_default staleRunningTask erroredStoppedCont ""
      erroredStoppedEvent (by rfl)).1 rfl "boom" rfl

/-- A sample task state change with running status and no containers. -/
def sampleTaskChange : TaskStateChange :=
  { Attachment := none, TaskARN := "t1", Status := .TaskRunning, Reason := "",
    Containers := [], PullStartedAt := none, PullStoppedAt := none,
    ExecutionStoppedAt := none, Task := none }

/-- C6: `ShouldBeReported` returns true exactly when the status is RUNNING
or STOPPED or the container list is non-empty. -/
theorem shouldBeReported_iff (change : TaskStateChange) :
    change.ShouldBeReported = true ↔
      (change.Status = TaskStatus.TaskRunning ∨ change.Status = TaskStatus.TaskStopped ∨
        change.Containers ≠ []) := by
  unfold TaskStateChange.ShouldBeReported
  split
  · next hcond =>
    simp only [Bool.or_eq_true, decide_eq_true_eq] at hcond
    refine iff_of_true rfl ?_
    rcases hcond with h | h
    · exact Or.inl h
    · exact Or.inr (Or.inl h)
  · next hcond =>
    simp only [Bool.or_eq_true, decide_eq_true_eq, not_or] at hcond
    split
    · next hlen =>
      refine iff_of_true rfl (Or.inr (Or.inr fun hnil => hlen ?_))
      simp [hnil]
    · next hlen =>
      have hnil : change.Containers = [] :=
        List.length_eq_zero.mp (not_ne_iff.mp hlen)
      refine iff_of_false (by simp) ?_
      rintro (h | h | h)
      · exact hcond.1 h
      · exact hcond.2 h
      · exact h hnil

/-- C6 witness: a running change with no containers is reported. -/
theorem shouldBeReported_iff_witness : sampleTaskChange.ShouldBeReported = true :=
  (shouldBeReported_iff sampleTaskChange).mpr (Or.inl rfl)

/-- The event produced for `sampleTask` with reason "r": the non-zero
pull-start time is copied in converted to UTC, the unset timestamps stay
absent. -/
def sampleTaskEvent : TaskStateChange :=
  { Attachment := none, TaskARN := "t1", Status := .TaskRunning, Reason := "r",
    Containers := [],
    PullStartedAt := some { sec := 1500000000, nsec := 5, loc := "UTC" },
    PullStoppedAt := none, ExecutionStoppedAt := none, Task := some sampleTask }

/-- C7: in every successfully constructed task event, each optional
timestamp is absent when the task's corresponding timestamp is zero and
otherwise equals that timestamp converted to UTC. -/
theorem newTaskStateChangeEvent_timestamps
    (task : Task) (reason : String) (ev : TaskStateChange)
    (h : NewTaskStateChangeEvent task reason = Except.ok ev) :
    ev.PullStartedAt =
      (if task.GetPullStartedAt.IsZero = true then none
       else some task.GetPullStartedAt.UTC) ∧
    ev.PullStoppedAt =
      (if task.GetPullStoppedAt.IsZero = true then none
       else some task.GetPullStoppedAt.UTC) ∧
    ev.ExecutionStoppedAt =
      (if task.GetExecutionStoppedAt.IsZero = true then none
       else some task.GetExecutionStoppedAt.UTC) := by
  unfold NewTaskStateChangeEvent at h
  dsimp only at h
  cases hrec : task.GetKnownStatus.BackendRecognized with
  | false => rw [hrec] at h; simp at h
  | true =>
    rw [hrec] at h
    rw [if_neg (by simp)] at h
    by_cases hge : task.GetSentStatus.ord ≥ task.GetKnownStatus.ord
    · rw [if_pos hge] at h; simp at h
    · rw [if_neg hge] at h
      injection h with h
      subst h
      unfold TaskStateChange.SetTaskTimestamps
      dsimp only
      split <;> split <;> split <;> simp_all

/-- C7 witness: the concrete task with one set and two unset timestamps. -/
theorem newTaskStateChangeEvent_timestamps_witness :
    sampleTaskEvent.PullStartedAt =
      (if sampleTask.GetPullStartedAt.IsZero = true then none
       else some sampleTask.GetPullStartedAt.UTC) ∧
    sampleTaskEvent.PullStoppedAt =
      (if sampleTask.GetPullStoppedAt.IsZero = true then none
       else some sampleTask.GetPullStoppedAt.UTC) ∧
    sampleTaskEvent.ExecutionStoppedAt =
      (if sampleTask.GetExecutionStoppedAt.IsZero = true then none
       else some sampleTask.GetExecutionStoppedAt.UTC) :=
  newTaskStateChangeEvent_timestamps sampleTask "r" sampleTaskEvent (by rfl)

/-- C10: `SetTaskTimestamps` leaves a snapshot with a nil task
back-reference entirely unchanged, and in every case modifies at most the
three timestamp fields, leaving every other field unchanged. -/
theorem setTaskTimestamps_frame (change : TaskStateChange) :
    (change.Task = none → change.SetTaskTimestamps = change) ∧
    (change.SetTaskTimestamps.Attachment = change.Attachment ∧
      change.SetTaskTimestamps.TaskARN = change.TaskARN ∧
      change.SetTaskTimestamps.Status = change.Status ∧
      change.SetTaskTimestamps.Reason = change.Reason ∧
      change.SetTaskTimestamps.Containers = change.Containers ∧
      change.SetTaskTimestamps.Task = change.Task) := by
  refine ⟨?_, setTaskTimestamps_frame_aux change⟩
  intro hT
  unfold TaskStateChange.SetTaskTimestamps
  simp [hT]

/-- C10 witness: a concrete snapshot with a nil task back-reference. -/
theorem setTaskTimestamps_frame_witness :
    sampleTaskChange.SetTaskTimestamps = sampleTaskChange :=
  (setTaskTimestamps_frame sampleTaskChange).1 rfl

/-- A string with a non-empty left part of an append is non-empty. -/
theorem strAppend_ne_empty_left (a b : String) (h : a ≠ "") : a ++ b ≠ "" := by
  intro hab
  apply h
  have hd : a.data ++ b.data = ([] : List Char) := by
    have hdata := congrArg String.data hab
    rwa [String.data_append] at hdata
  exact String.ext (List.append_eq_nil.mp hd).1

/-- Per the spec's rendering contract: the exit-code segment of a
container state change, present exactly when an exit code is recorded. -/
def specSegExit (c : ContainerStateChange) : String :=
  match c.ExitCode with
  | some code => ", Exit " ++ toString code ++ ", "
  | none => ""

/-- Per the spec's rendering contract: the reason segment, present exactly
when the reason is non-empty. -/
def specSegReason (c : ContainerStateChange) : String :=
  if c.Reason ≠ "" then ", Reason " ++ c.Reason else ""

/-- Per the spec's rendering contract: the port-bindings segment, present
exactly when the binding list is non-empty. -/
def specSegPorts (c : ContainerStateChange) : String :=
  if c.PortBindings.length ≠ 0 then ", Ports " ++ formatPortBindings c.PortBindings else ""

/-- Per the spec's rendering contract: the last-sent-status echo segment,
present exactly when the container back-reference is present. -/
def specSegKnownSent (c : ContainerStateChange) : String :=
  match c.Container with
  | some cont => ", Known Sent: " ++ cont.GetSentStatus.String
  | none => ""

/-- Per the spec's rendering contract: the last-sent-status echo and
timestamps segment of a task state change, present exactly when the task
back-reference is present. -/
def specSegTaskEcho (t : TaskStateChange) : String :=
  match t.Task with
  | some task =>
    ", Known Sent: " ++ task.GetSentStatus.String
      ++ ", PullStartedAt: " ++ task.GetPullStartedAt.String
      ++ ", PullStoppedAt: " ++ task.GetPullStoppedAt.String
      ++ ", ExecutionStoppedAt: " ++ task.GetExecutionStoppedAt.String
  | none => ""

/-- Per the spec's rendering contract: the attachment-summary segment,
present exactly when an attachment is present. -/
def specSegAttachment (t : TaskStateChange) : String :=
  match t.Attachment with
  | some a => ", " ++ a.String
  | none => ""

/-- Per the spec's rendering contract: the nested container summaries,
present exactly when the container list is non-empty. -/
def specSegContainers : List ContainerStateChange → String
  | [] => ""
  | cc :: rest => ", " ++ cc.String ++ specSegContainers rest

/-- The rendering fold over the container list appends the nested
container summaries. -/
theorem renderContainers_foldl (l : List ContainerStateChange) (acc : String) :
    l.foldl (fun a containerChange => a ++ ", " ++ containerChange.String) acc =
      acc ++ specSegContainers l := by
  induction l generalizing acc with
  | nil => simp [specSegContainers]
  | cons cc rest ih =>
    rw [List.foldl_cons, ih]
    simp only [specSegContainers, String.append_assoc]

/-- The container rendering decomposes into the mandatory head followed by
the four optional segments in order. -/
theorem containerString_eq (c : ContainerStateChange) :
    c.String = c.TaskArn ++ " " ++ c.ContainerName ++ " -> " ++ c.Status.String
      ++ specSegExit c ++ specSegReason c ++ specSegPorts c ++ specSegKnownSent c := by
  unfold ContainerStateChange.String specSegExit specSegReason specSegPorts specSegKnownSent
  dsimp only
  cases c.ExitCode <;> cases c.Container <;>
    (dsimp only; split_ifs <;> simp only [String.append_assoc, String.append_empty])

/-- The task rendering decomposes into the mandatory head followed by the
three optional segments in order. -/
theorem taskString_eq (t : TaskStateChange) :
    t.String = t.TaskARN ++ " -> " ++ t.Status.String
      ++ specSegTaskEcho t ++ specSegAttachment t ++ specSegContainers t.Containers := by
  unfold TaskStateChange.String specSegTaskEcho specSegAttachment
  dsimp only
  rw [renderContainers_foldl]
  cases t.Task <;> cases t.Attachment <;>
    simp only [String.append_assoc, String.append_empty]

/-- The exit-code segment is non-empty exactly when an exit code is recorded. -/
theorem specSegExit_ne_iff (c : ContainerStateChange) :
    specSegExit c ≠ "" ↔ c.ExitCode ≠ none := by
  unfold specSegExit
  cases c.ExitCode with
  | none => simp
  | some code =>
    have hne : ", Exit " ++ toString code ++ ", " ≠ "" :=
      strAppend_ne_empty_left _ _ (strAppend_ne_empty_left _ _ (by decide))
    simp [hne]

/-- The reason segment is non-empty exactly when the reason is non-empty. -/
theorem specSegReason_ne_iff (c : ContainerStateChange) :
    specSegReason c ≠ "" ↔ c.Reason ≠ "" := by
  unfold specSegReason
  by_cases hr : c.Reason ≠ ""
  · have hne : ", Reason " ++ c.Reason ≠ "" :=
      strAppend_ne_empty_left _ _ (by decide)
    simp [hr, hne]
  · simp [hr]

/-- The port-bindings segment is non-empty exactly when the binding list
is non-empty. -/
theorem specSegPorts_ne_iff (c : ContainerStateChange) :
    specSegPorts c ≠ "" ↔ c.PortBindings ≠ [] := by
  unfold specSegPorts
  by_cases hp : c.PortBindings.length ≠ 0
  · have hne : ", Ports " ++ formatPortBindings c.PortBindings ≠ "" :=
      strAppend_ne_empty_left _ _ (by decide)
    simp [hp, hne]
    intro hnil
    exact hp (by simp [hnil])
  · have hnil : c.PortBindings = [] :=
      List.length_eq_zero.mp (not_ne_iff.mp hp)
    simp [hp, hnil]

/-- The last-sent-status echo segment is non-empty exactly when the
container back-reference is present. -/
theorem specSegKnownSent_ne_iff (c : ContainerStateChange) :
    specSegKnownSent c ≠ "" ↔ c.Container ≠ none := by
  unfold specSegKnownSent
  cases c.Container with
  | none => simp
  | some cont =>
    have hne : ", Known Sent: " ++ cont.GetSentStatus.String ≠ "" :=
      strAppend_ne_empty_left _ _ (by decide)
    simp [hne]

/-- The task echo segment is non-empty exactly when the task
back-reference is present. -/
theorem specSegTaskEcho_ne_iff (t : TaskStateChange) :
    specSegTaskEcho t ≠ "" ↔ t.Task ≠ none := by
  unfold specSegTaskEcho
  cases t.Task with
  | none => simp
  | some task =>
    have hne : ", Known Sent: " ++ task.GetSentStatus.String
        ++ ", PullStartedAt: " ++ task.GetPullStartedAt.String
        ++ ", PullStoppedAt: " ++ task.GetPullStoppedAt.String
        ++ ", ExecutionStoppedAt: " ++ task.GetExecutionStoppedAt.String ≠ "" := by
      refine strAppend_ne_empty_left _ _ ?_
      refine strAppend_ne_empty_left _ _ ?_
      refine strAppend_ne_empty_left _ _ ?_
      refine strAppend_ne_empty_left _ _ ?_
      refine strAppend_ne_empty_left _ _ ?_
      refine strAppend_ne_empty_left _ _ ?_
      exact strAppend_ne_empty_left _ _ (by decide)
    simp [hne]

/-- The attachment segment is non-empty exactly when an attachment is
present. -/
theorem specSegAttachment_ne_iff (t : TaskStateChange) :
    specSegAttachment t ≠ "" ↔ t.Attachment ≠ none := by
  unfold specSegAttachment
  cases t.Attachment with
  | none => simp
  | some a =>
    have hne : ", " ++ a.String ≠ "" :=
      strAppend_ne_empty_left _ _ (by decide)
    simp [hne]

/-- The nested container summaries are non-empty exactly when the
container list is non-empty. -/
theorem specSegContainers_ne_iff (l : List ContainerStateChange) :
    specSegContainers l ≠ "" ↔ l ≠ [] := by
  cases l with
  | nil => simp [specSegContainers]
  | cons cc rest =>
    have hne : ", " ++ cc.String ++ specSegContainers rest ≠ "" :=
      strAppend_ne_empty_left _ _ (strAppend_ne_empty_left _ _ (by decide))
    simp [specSegContainers, hne]

/-- A sample container state change with every optional segment absent. -/
def sampleContainerChange : ContainerStateChange :=
  { TaskArn := "t1", ContainerName := "c1", Status := .ContainerRunning,
    Reason := "", ExitCode := none, PortBindings := [], Container := none }

/-- C8: both renderings begin with the identifier and an arrow to the
status, followed by the optional segments (exit code, reason, port
bindings, last-sent-status echo, timestamps, attachment summary, nested
container summaries) in the fixed source order, each segment non-empty
exactly when its underlying value is present/non-empty. -/
theorem stateChange_render_contract (c : ContainerStateChange) (t : TaskStateChange) :
    (c.String = c.TaskArn ++ " " ++ c.ContainerName ++ " -> " ++ c.Status.String
        ++ specSegExit c ++ specSegReason c ++ specSegPorts c ++ specSegKnownSent c ∧
      (specSegExit c ≠ "" ↔ c.ExitCode ≠ none) ∧
      (specSegReason c ≠ "" ↔ c.Reason ≠ "") ∧
      (specSegPorts c ≠ "" ↔ c.PortBindings ≠ []) ∧
      (specSegKnownSent c ≠ "" ↔ c.Container ≠ none)) ∧
    (t.String = t.TaskARN ++ " -> " ++ t.Status.String
        ++ specSegTaskEcho t ++ specSegAttachment t ++ specSegContainers t.Containers ∧
      (specSegTaskEcho t ≠ "" ↔ t.Task ≠ none) ∧
      (specSegAttachment t ≠ "" ↔ t.Attachment ≠ none) ∧
      (specSegContainers t.Containers ≠ "" ↔ t.Containers ≠ [])) :=
  ⟨⟨containerString_eq c, specSegExit_ne_iff c, specSegReason_ne_iff c,
      specSegPorts_ne_iff c, specSegKnownSent_ne_iff c⟩,
    ⟨taskString_eq t, specSegTaskEcho_ne_iff t, specSegAttachment_ne_iff t,
      specSegContainers_ne_iff t.Containers⟩⟩

/-- C8 witness: the decomposition at a concrete container change. -/
theorem stateChange_render_contract_witness :
    sampleContainerChange.String =
      sampleContainerChange.TaskArn ++ " " ++ sampleContainerChange.ContainerName
        ++ " -> " ++ sampleContainerChange.Status.String
        ++ specSegExit sampleContainerChange ++ specSegReason sampleContainerChange
        ++ specSegPorts sampleContainerChange ++ specSegKnownSent sampleContainerChange :=
  (stateChange_render_contract sampleContainerChange sampleTaskChange).1.1

end api
